import Mathlib

/-!
Verification of the netfilter_queue Rust binding against its design document.

The development shallowly embeds the library's source files
(src/lib.rs, src/message.rs, src/queue/mod.rs, src/ip/mod.rs,
examples/get_ip_ports.rs).  The crate also references modules that are not
part of the supplied sources (ffi, util, error, lock, handle, ip/protocol,
queue/verdict); each definition standing in for one of those carries a doc
comment starting with `Modelled from the spec:`.

Machine integers are modelled as `Nat` (with explicit `% 2 ^ w` where a cast
truncates) and `Int` for C return codes.  The kernel side of the netlink
channel (the libnetfilter_queue C library) is modelled as an oracle record
`Kernel` of pure functions giving the outcome of each foreign call.
-/

namespace NFQ

/-- Modelled from the spec: the `Reason` discriminant of `error::Error`
(src/error.rs is not in the sources).  The variants `GetHeader`, `GetPayload`,
`CreateQueue`, `SetQueueMode` and `SetQueueMaxlen` are the ones constructed by
the supplied source files; `OpenHandle`, `Bind`, `SetVerdict` cover the
operations of the missing handle.rs / queue/verdict.rs; `PayloadSizeMismatch`
is the error kind the design document postulates for a payload whose byte
length differs from the requested type's size. -/
inductive Reason where
  | GetHeader
  | GetPayload
  | CreateQueue
  | SetQueueMode
  | SetQueueMaxlen
  | OpenHandle
  | Bind
  | SetVerdict
  | PayloadSizeMismatch
deriving DecidableEq

/-- Modelled from the spec: `error::Error` (src/error.rs is not in the
sources).  The source pairs a `Reason` with a static description string and an
optional C return code; the string never influences control flow, so the
embedding keeps the reason and the code. -/
structure Error where
  reason : Reason
  code : Option Int
deriving DecidableEq

/-- Modelled from the spec: the `error(reason, msg, code)` constructor used
throughout the source files (src/error.rs is not in the sources); the `msg`
argument is dropped as described on `Error`. -/
def error (r : Reason) (c : Option Int) : Error := ⟨r, c⟩

/-- Modelled from the spec: the protocol-family enumeration bound by
`Handle::bind` (src/ffi.rs is not in the sources); the design document lists
IPv4 / IPv6 / bridge address families. -/
inductive ProtocolFamily where
  | INET
  | INET6
  | BRIDGE
deriving DecidableEq

/-- Modelled from the spec: the `Verdict` enumeration of queue/verdict.rs
(not in the sources): accept, drop, or requeue to another queue number. -/
inductive Verdict where
  | Accept
  | Drop
  | Requeue (queue : Nat)
deriving DecidableEq

/-- One verdict frame as written to the netlink channel: the packet id it
resolves, the verdict, the mark value, and the optional extra payload bytes
(`None` models the null data pointer). -/
structure VerdictFrame where
  packet_id : Nat
  verdict : Verdict
  mark : Nat
  data : Option (List Nat)
deriving DecidableEq

/-- Modelled from the spec: the generic packet-event header
`ffi::nfqnl_msg_packet_hdr`, re-exported as `message::Header`
(src/ffi.rs is not in the sources).  The design document gives its fields as
the packet id (32-bit, wire order), the hook number and the hardware
protocol; `packet_id` here carries the already host-order id that the missing
`Header::id()` accessor decodes. -/
structure Header where
  packet_id : Nat
  hw_protocol : Nat
  hook : Nat
deriving DecidableEq

/-- Modelled from the spec: `Header::id()` (src/ffi.rs is not in the
sources): returns the packet id needed to address a verdict. -/
def Header.id (h : Header) : Nat := h.packet_id

/-- One received nfqueue event as seen through the foreign accessors:
`header` is the outcome of `nfq_get_msg_packet_hdr` (`none` models a null
header pointer) and `payload` the outcome of `nfq_get_payload`
(`none` models a `-1` return, `some bs` a success delivering the copied
packet bytes). -/
structure RawEvent where
  header : Option Header
  payload : Option (List Nat)
deriving DecidableEq

/-- Embedding of `message::Message` (src/message.rs lines 16-27): the raw
`nfq_data` pointer the payload is fetched from, and the borrowed, always
pre-parsed packet header. -/
structure Message where
  ptr : RawEvent
  header : Header
deriving DecidableEq

/-- Embedding of `Message::new` (src/message.rs lines 35-48): fetches the
packet header via `nfq_get_msg_packet_hdr`; a null header pointer yields
`Err(GetHeader)`, otherwise the message is built with the header borrowed
from the event. -/
def Message.new (d : RawEvent) : Except Error Message :=
  match d.header with
  | none => Except.error (error Reason.GetHeader none)
  | some h => Except.ok ⟨d, h⟩

/-- Embedding of `Message::payload` (src/message.rs lines 56-67): calls
`nfq_get_payload`; a `-1` return yields `Err(GetPayload, Some(-1))`.  On
success the C call hands back the payload pointer and its byte count, the
count is discarded (`let _ = match ...`), and the bytes are reinterpreted as
the requested type `A` without any comparison against `size_of::<A>()` — the
returned value is the raw byte buffer the `&A` reference points at.  The
second null check (`as_ref(&data)`, util.rs not in the sources) guards the
pointer written by a successful call, which is non-null, so its `None` arm is
unreachable on the success path. -/
def Message.payload (m : Message) : Except Error (List Nat) :=
  match m.ptr.payload with
  | none => Except.error (error Reason.GetPayload (some (-1)))
  | some bs => Except.ok bs

/-- Modelled from the spec: `queue::verdict::QueueHandle`
(src/queue/verdict.rs is not in the sources): a lightweight, shareable
wrapper around the raw `nfq_q_handle` pointer, sufficient only to issue
verdicts. -/
structure QueueHandle where
  ptr : Nat
deriving DecidableEq

/-- Modelled from the spec: `QueueHandle::new` (src/queue/verdict.rs is not
in the sources). -/
def QueueHandle.new (p : Nat) : QueueHandle := ⟨p⟩

/-- Embedding of `queue::Brake` (src/queue/mod.rs lines 33-36): the
continue/stop signal a packet handler returns. -/
inductive Brake where
  | Brake
  | Continue
deriving DecidableEq

/-- The C discriminants of `Brake` (src/queue/mod.rs lines 33-36:
`Brake = -1`, `Continue = 0`); `queue_callback` returns the handler's signal
through this cast. -/
def Brake.toCInt : NFQ.Brake → Int
  | Brake.Brake => -1
  | Brake.Continue => 0

/-- Embedding of `queue::CopyMode` (src/queue/mod.rs lines 24-31).  The
`packet` byte count is a `u16` in the source, kept as a `Nat` produced by the
explicit `as u16` truncation where one occurs. -/
inductive CopyMode where
  | none
  | metadata
  | packet (bytes : Nat)
deriving DecidableEq

/-- Constant `NFQNL_COPY_NONE` (src/queue/mod.rs line 19). -/
def NFQNL_COPY_NONE : Nat := 0

/-- Constant `NFQNL_COPY_META` (src/queue/mod.rs line 20). -/
def NFQNL_COPY_META : Nat := 1

/-- Constant `NFQNL_COPY_PACKET` (src/queue/mod.rs line 21). -/
def NFQNL_COPY_PACKET : Nat := 2

/-- The first `match` of `Queue::set_mode` (src/queue/mod.rs lines 102-106):
the copy-mode discriminant passed to `nfq_set_mode`. -/
def CopyMode.code : CopyMode → Nat
  | CopyMode.none => NFQNL_COPY_NONE
  | CopyMode.metadata => NFQNL_COPY_META
  | CopyMode.packet _ => NFQNL_COPY_PACKET

/-- The second `match` of `Queue::set_mode` (src/queue/mod.rs lines 107-110):
the byte range passed to `nfq_set_mode` (the packet byte count, else 0). -/
def CopyMode.range : CopyMode → Nat
  | CopyMode.packet r => r
  | _ => 0

/-- Oracle for the foreign libnetfilter_queue / netlink side: each field
gives the outcome of one foreign call.  `nfq_create_queue` is `true` when
the returned queue handle is non-null; `nfq_set_mode` and
`nfq_destroy_queue` return C status codes; `verdictWrite` is `some ret` when
writing a verdict frame succeeds with return value `ret` and `none` when the
write fails; `newHandleOk`, `bindOk` and `startSized` give the outcomes of
the missing handle.rs operations. -/
structure Kernel where
  newHandleOk : Bool
  bindOk : ProtocolFamily → Bool
  nfq_create_queue : Nat → Bool
  nfq_set_mode : Nat → Nat → Int
  nfq_destroy_queue : Int
  startSized : Nat → Except Error Unit
  verdictWrite : VerdictFrame → Option Int

/-- Embedding of `Queue::new` (src/queue/mod.rs lines 70-98): under the
registration lock, calls `nfq_create_queue` with the queue number and the
callback; a null return yields `Err(CreateQueue)`, otherwise the queue is
registered. -/
def Queue.new (k : Kernel) (queue_number : Nat) : Except Error Unit :=
  if k.nfq_create_queue queue_number then Except.ok ()
  else Except.error (error Reason.CreateQueue none)

/-- Embedding of `Queue::set_mode` (src/queue/mod.rs lines 101-118): calls
`nfq_set_mode` with the mode's discriminant and byte range; a nonzero return
`res` yields `Err(SetQueueMode, Some(res))`, a zero return yields `Ok(())`. -/
def Queue.set_mode (k : Kernel) (mode : CopyMode) : Except Error Unit :=
  let res := k.nfq_set_mode mode.code mode.range
  if res ≠ 0 then Except.error (error Reason.SetQueueMode (some res))
  else Except.ok ()

/-- Embedding of `Queue::set_mode_sized::<P>` (src/queue/mod.rs lines
124-127): `set_mode(CopyMode::Packet(mem::size_of::<P>() as u16))`; the
`as u16` cast is the explicit `% 2 ^ 16`. -/
def Queue.set_mode_sized (k : Kernel) (sizeOfP : Nat) : Except Error Unit :=
  Queue.set_mode k (CopyMode.packet (sizeOfP % 2 ^ 16))

/-- Outcome of running `Drop for Queue`: either a normal return or a process
abort (the source's `panic!("Failed to destroy nfq queue")`). -/
inductive DropOutcome where
  | ok
  | panicked
deriving DecidableEq

/-- Configuration-side events observed by the kernel oracle, used to state
which registrations the convenience functions perform. -/
inductive Event where
  | newHandle
  | bind (pf : ProtocolFamily)
  | createQueue (n : Nat)
  | setModeSized (bytes : Nat)
  | log (queueNum : Nat)
  | start (bytes : Nat)
  | destroyQueue
deriving DecidableEq

/-- Embedding of `Drop for Queue` (src/queue/mod.rs lines 61-68): always
calls `nfq_destroy_queue` (the kernel-side deregistration, recorded as the
`destroyQueue` event); a nonzero return aborts the process via the panic,
a zero return completes normally. -/
def Queue.drop (k : Kernel) : DropOutcome × List Event :=
  let ret := k.nfq_destroy_queue
  (if ret ≠ 0 then DropOutcome.panicked else DropOutcome.ok, [Event.destroyQueue])

/-- Modelled from the spec: `Handle::new` (src/handle.rs is not in the
sources): allocates the transport channel, failing when the socket cannot be
opened. -/
def Handle.new (k : Kernel) : Except Error Unit :=
  if k.newHandleOk then Except.ok ()
  else Except.error (error Reason.OpenHandle none)

/-- Modelled from the spec: `Handle::bind` (src/handle.rs is not in the
sources): binds the channel to a protocol family, failing when the kernel
rejects the bind. -/
def Handle.bind (k : Kernel) (pf : ProtocolFamily) : Except Error Unit :=
  if k.bindOk pf then Except.ok ()
  else Except.error (error Reason.Bind none)

/-- Modelled from the spec: `Handle::queue` (src/handle.rs is not in the
sources): delegates queue creation to `Queue::new` with the given queue
number. -/
def Handle.queue (k : Kernel) (queue_number : Nat) : Except Error Unit :=
  Queue.new k queue_number

/-- Modelled from the spec: `Handle::start_sized::<P>` (src/handle.rs is not
in the sources): enters the blocking receive loop for payloads of
`size_of::<P>()` bytes; the oracle supplies its final outcome. -/
def Handle.start_sized (k : Kernel) (bytes : Nat) : Except Error Unit :=
  k.startSized bytes

/-- Byte size of `ip::IPHeader` (src/ip/mod.rs lines 17-28): the sum of its
field widths u8 + u8 + u16 + u16 + u16 + u8 + u8 + u16 + u32 + u32; the
maximal field alignment (4) packs them without padding. -/
def sizeOfIPHeader : Nat := 1 + 1 + 2 + 2 + 2 + 1 + 1 + 2 + 4 + 4

/-- Byte size of `ip::IPPortHeader` (src/ip/mod.rs lines 30-34): an
`IPHeader` followed by two `u16` port fields. -/
def sizeOfIPPortHeader : Nat := sizeOfIPHeader + 2 + 2

/-- Embedding of the `ip` convenience function (src/ip/mod.rs lines
147-156) as the sequence of kernel-facing operations it performs, with the
`try!` short-circuiting of each step: create a handle, bind the protocol
family, create the queue with the literal queue number `0`, set the copy
mode to the size of `IPHeader`, log the `queue_num` argument, and start the
receive loop.  Returns the overall result together with the list of
attempted operations in order. -/
def ip (k : Kernel) (pf : ProtocolFamily) (queue_num : Nat) :
    Except Error Unit × List Event :=
  match Handle.new k with
  | Except.error e => (Except.error e, [Event.newHandle])
  | Except.ok _ =>
    match Handle.bind k pf with
    | Except.error e => (Except.error e, [Event.newHandle, Event.bind pf])
    | Except.ok _ =>
      match Handle.queue k 0 with
      | Except.error e =>
          (Except.error e, [Event.newHandle, Event.bind pf, Event.createQueue 0])
      | Except.ok _ =>
        match Queue.set_mode_sized k sizeOfIPHeader with
        | Except.error e =>
            (Except.error e,
             [Event.newHandle, Event.bind pf, Event.createQueue 0,
              Event.setModeSized sizeOfIPHeader])
        | Except.ok _ =>
            (Handle.start_sized k sizeOfIPHeader,
             [Event.newHandle, Event.bind pf, Event.createQueue 0,
              Event.setModeSized sizeOfIPHeader, Event.log queue_num,
              Event.start sizeOfIPHeader])

/-- Embedding of the `ip_ports` convenience function (src/ip/mod.rs lines
158-167): as `ip`, but the queue is created with the `queue_num` argument
and the copy mode and loop are sized to `IPPortHeader`. -/
def ip_ports (k : Kernel) (pf : ProtocolFamily) (queue_num : Nat) :
    Except Error Unit × List Event :=
  match Handle.new k with
  | Except.error e => (Except.error e, [Event.newHandle])
  | Except.ok _ =>
    match Handle.bind k pf with
    | Except.error e => (Except.error e, [Event.newHandle, Event.bind pf])
    | Except.ok _ =>
      match Handle.queue k queue_num with
      | Except.error e =>
          (Except.error e,
           [Event.newHandle, Event.bind pf, Event.createQueue queue_num])
      | Except.ok _ =>
        match Queue.set_mode_sized k sizeOfIPPortHeader with
        | Except.error e =>
            (Except.error e,
             [Event.newHandle, Event.bind pf, Event.createQueue queue_num,
              Event.setModeSized sizeOfIPPortHeader])
        | Except.ok _ =>
            (Handle.start_sized k sizeOfIPPortHeader,
             [Event.newHandle, Event.bind pf, Event.createQueue queue_num,
              Event.setModeSized sizeOfIPPortHeader, Event.log queue_num,
              Event.start sizeOfIPPortHeader])

/-- Modelled from the spec: `Verdict::set_verdict` (src/queue/verdict.rs is
not in the sources): encodes a verdict frame tagged with the given packet
id, verdict, mark and optional extra payload bytes and writes it through the
transport channel shared with the originating handle; a failed write yields
a `SetVerdict` error, a successful one returns the C write result.  The
attempted frame is returned alongside the result. -/
def Verdict.set_verdict (k : Kernel) (_qh : QueueHandle) (id : Nat)
    (verdict : Verdict) (mark : Nat) (data : Option (List Nat)) :
    Except Error Int × VerdictFrame :=
  let frame : VerdictFrame := ⟨id, verdict, mark, data⟩
  match k.verdictWrite frame with
  | some ret => (Except.ok ret, frame)
  | none => (Except.error (error Reason.SetVerdict none), frame)

/-- Embedding of the public `ip::set_verdict` wrapper (src/ip/mod.rs lines
169-171): `Verdict::set_verdict(qh, id, verdict, 0, ptr::null())`. -/
def set_verdict (k : Kernel) (qh : QueueHandle) (id : Nat) (verdict : Verdict) :
    Except Error Int × VerdictFrame :=
  Verdict.set_verdict k qh id verdict 0 none

/-- Embedding of `queue_callback` (src/queue/mod.rs lines 38-47): recovers
the owning queue from the context pointer, builds the `Message` from the
event, and invokes the queue's handler with a fresh `QueueHandle` and the
parse result (`message.as_ref()`), threading the handler's mutable state.
The handler's `Brake` is returned to the C library as a `c_int` via
`Brake.toCInt`; the embedding keeps the `Brake` value itself. -/
def queue_callback {σ : Type} (handler : σ → QueueHandle → Except Error Message → σ × Brake)
    (s : σ) (qhp : Nat) (d : RawEvent) : σ × Brake :=
  handler s (QueueHandle.new qhp) (Message.new d)

/-- Modelled from the spec: the receive loop of `Handle::start`
(src/handle.rs is not in the sources).  Each received event is run through
`queue_callback`; a negative callback return (`Brake`, cast to -1) makes
`start` return normally, a zero return (`Continue`) proceeds to the next
event.  The result is the list of arguments the handler was invoked with, in
order. -/
def startLoop {σ : Type} (handler : σ → QueueHandle → Except Error Message → σ × Brake)
    (qhp : Nat) : σ → List RawEvent → List (Except Error Message)
  | _, [] => []
  | s, d :: rest =>
    let r := queue_callback handler s qhp d
    match r.2 with
    | Brake.Brake => [Message.new d]
    | Brake.Continue => Message.new d :: startLoop handler qhp r.1 rest

/-- The handler state reached after the loop has processed a list of events
(threading `queue_callback` exactly as `startLoop` does). -/
def runState {σ : Type} (handler : σ → QueueHandle → Except Error Message → σ × Brake)
    (qhp : Nat) : σ → List RawEvent → σ
  | s, [] => s
  | s, d :: rest => runState handler qhp (queue_callback handler s qhp d).1 rest

/-- Decidable statement that the handler answers `Continue` on every event
of the list, under the same state threading as `startLoop`. -/
def allContinue {σ : Type} (handler : σ → QueueHandle → Except Error Message → σ × Brake)
    (qhp : Nat) : σ → List RawEvent → Bool
  | _, [] => true
  | s, d :: rest =>
    match (queue_callback handler s qhp d).2 with
    | Brake.Brake => false
    | Brake.Continue => allContinue handler qhp (queue_callback handler s qhp d).1 rest

/-- Embedding of `impl PacketHandler for IPHandler` (src/ip/mod.rs lines
101-122): on an `Ok` message it fetches the typed payload; on payload
success it relays to the wrapped closure (which receives the netlink header
and the payload view, here the raw bytes the `&IPHeader` points at); on
payload failure it logs a warning and returns `Continue`; on an `Err`
message it logs the corrupted packet and returns `Continue`.
`impl PacketHandler for IPPortHandler` (lines 124-145) is textually the same
up to the payload type and log text. -/
def IPHandler.handle {σ : Type} (relay : σ → QueueHandle → Header → List Nat → σ × Brake)
    (s : σ) (qh : QueueHandle) (message : Except Error Message) : σ × Brake :=
  match message with
  | Except.ok m =>
    match Message.payload m with
    | Except.ok ip_header => relay s qh m.header ip_header
    | Except.error _ => (s, Brake.Continue)
  | Except.error _ => (s, Brake.Continue)

/-- Embedding of `impl PacketHandler for V where V: VerdictHandler`
(src/queue/mod.rs lines 158-168): on an `Ok` message it issues
`Verdict::set_verdict(hq, m.header.id(), decide(m), 0, NULL)` discarding the
result, on an `Err` message it does nothing; it returns `Brake::Continue` in
both cases.  The list collects the verdict frames whose write was attempted. -/
def VerdictHandler.handle {σ : Type} (k : Kernel) (decideFn : σ → Message → σ × Verdict)
    (s : σ) (hq : QueueHandle) (message : Except Error Message) :
    (σ × Brake) × List VerdictFrame :=
  match message with
  | Except.ok m =>
    let dv := decideFn s m
    let w := Verdict.set_verdict k hq m.header.id dv.2 0 none
    ((dv.1, Brake.Continue), [w.2])
  | Except.error _ => ((s, Brake.Continue), [])

/-- Embedding of `impl VerdictHandler for F where F: FnMut(&Message) ->
Verdict` (src/queue/mod.rs lines 170-174): `decide` simply invokes the
closure. -/
def FnMut.decide {σ : Type} (f : σ → Message → σ × Verdict) : σ → Message → σ × Verdict := f

/-- Modelled from the spec: `ip::protocol::Protocol` (src/ip/protocol.rs is
not in the sources): the closed protocol enumeration, with an
other-by-number case carrying the raw byte. -/
inductive Protocol where
  | TCP
  | UDP
  | ICMP
  | OTHER (byte : Nat)
deriving DecidableEq

/-- Modelled from the spec: the `From<u8>` conversion `Protocol::from`
(src/ip/protocol.rs is not in the sources; `from` is a Lean keyword, hence
`ofByte`): byte 6 maps to TCP, byte 17 to UDP, byte 1 to ICMP, and every
other byte to the other-by-number case carrying that byte. -/
def Protocol.ofByte (b : Nat) : Protocol :=
  if b = 6 then Protocol.TCP
  else if b = 17 then Protocol.UDP
  else if b = 1 then Protocol.ICMP
  else Protocol.OTHER b

/-- A `u32` field as the four bytes of its in-memory representation, in
memory order.  For a struct transmuted from wire data these are exactly the
wire bytes; `mem::transmute::<u32, [u8; 4]>` (src/ip/mod.rs line 87) is the
identity on this representation on any host. -/
structure RawU32 where
  b0 : Nat
  b1 : Nat
  b2 : Nat
  b3 : Nat
deriving DecidableEq

/-- Model of `std::net::Ipv4Addr` as its four octets, first octet first. -/
structure Ipv4Addr where
  o0 : Nat
  o1 : Nat
  o2 : Nat
  o3 : Nat
deriving DecidableEq

/-- The identity conversion `u8::from_be` on a single byte, used by the
source on each octet and on the protocol byte. -/
def u8_from_be (b : Nat) : Nat := b

/-- Embedding of `addr_to_ipv4` (src/ip/mod.rs lines 85-92): transmutes the
raw `u32` into its four bytes and builds the address from them in order,
passing each through `u8::from_be`. -/
def addr_to_ipv4 (src : RawU32) : Ipv4Addr :=
  ⟨u8_from_be src.b0, u8_from_be src.b1, u8_from_be src.b2, u8_from_be src.b3⟩

/-- The spec-side encoder for the round-trip property: an IPv4 address in
4-byte big-endian (network) order stores its first octet in the first byte. -/
def ipv4_to_wire (a : Ipv4Addr) : RawU32 := ⟨a.o0, a.o1, a.o2, a.o3⟩

/-- Embedding of `ip::IPHeader` (src/ip/mod.rs lines 17-28); the two `u32`
address fields are kept as their memory bytes (see `RawU32`), the narrower
fields as `Nat`. -/
structure IPHeader where
  version_and_header_raw : Nat
  dscp_raw : Nat
  total_length_raw : Nat
  id_raw : Nat
  flags_and_offset_raw : Nat
  ttl_raw : Nat
  protocol_raw : Nat
  checksum_raw : Nat
  saddr_raw : RawU32
  daddr_raw : RawU32
deriving DecidableEq

/-- Embedding of `ip::IPPortHeader` (src/ip/mod.rs lines 30-34). -/
structure IPPortHeader where
  header : IPHeader
  sport_raw : Nat
  dport_raw : Nat
deriving DecidableEq

/-- Embedding of `IPHeader::protocol` (src/ip/mod.rs lines 40-43):
`Protocol::from(u8::from_be(self.protocol_raw))`. -/
def IPHeader.protocol (h : IPHeader) : Protocol :=
  Protocol.ofByte (u8_from_be h.protocol_raw)

/-- Embedding of `IPHeader::source_ip` (src/ip/mod.rs lines 47-49). -/
def IPHeader.source_ip (h : IPHeader) : Ipv4Addr := addr_to_ipv4 h.saddr_raw

/-- Embedding of `IPHeader::dest_ip` (src/ip/mod.rs lines 53-55). -/
def IPHeader.dest_ip (h : IPHeader) : Ipv4Addr := addr_to_ipv4 h.daddr_raw

/-- Embedding of `IPPortHeader::protocol` (src/ip/mod.rs lines 60-62):
delegates to the inner header. -/
def IPPortHeader.protocol (p : IPPortHeader) : Protocol := p.header.protocol

/-- Embedding of `IPPortHeader::source_ip` (src/ip/mod.rs lines 65-67). -/
def IPPortHeader.source_ip (p : IPPortHeader) : Ipv4Addr := p.header.source_ip

/-- Embedding of `IPPortHeader::dest_ip` (src/ip/mod.rs lines 70-72). -/
def IPPortHeader.dest_ip (p : IPPortHeader) : Ipv4Addr := p.header.dest_ip

/-- Sample packet header used by concrete witnesses. -/
def hdr1 : Header := ⟨1001, 0, 0⟩

/-- Sample event carrying a 20-byte payload (an IPv4 header without ports). -/
def ev20 : RawEvent := ⟨some hdr1, some (List.replicate 20 0)⟩

/-- The message `Message::new` builds from `ev20`. -/
def msg20 : Message := ⟨ev20, hdr1⟩

/-- Sample event whose `nfq_get_payload` call fails. -/
def evNoPayload : RawEvent := ⟨some hdr1, none⟩

/-- The message `Message::new` builds from `evNoPayload`. -/
def msgNoPayload : Message := ⟨evNoPayload, hdr1⟩

/-- Sample event whose header pointer is null. -/
def evBad : RawEvent := ⟨none, some [0]⟩

/-- Sample events with packet ids 1, 2, 3 used by the loop witnesses. -/
def evA : RawEvent := ⟨some ⟨1, 0, 0⟩, some [0]⟩

/-- Second sample event (packet id 2). -/
def evB : RawEvent := ⟨some ⟨2, 0, 0⟩, some [0]⟩

/-- Third sample event (packet id 3). -/
def evC : RawEvent := ⟨some ⟨3, 0, 0⟩, some [0]⟩

/-- Kernel oracle on which every foreign call succeeds. -/
def testKernel : Kernel :=
  ⟨true, fun _ => true, fun _ => true, fun _ _ => 0, 0, fun _ => Except.ok (), fun _ => some 0⟩

/-- Kernel oracle on which configuration, teardown and verdict writes fail. -/
def failKernel : Kernel :=
  ⟨true, fun _ => true, fun _ => true, fun _ _ => 1, 1, fun _ => Except.ok (), fun _ => none⟩

/-- Sample IP header with protocol byte 6 (TCP). -/
def iphdr0 : IPHeader := ⟨4, 0, 20, 0, 0, 64, 6, 0, ⟨10, 0, 0, 1⟩, ⟨10, 0, 0, 2⟩⟩

/-- Sample IP+port header wrapping `iphdr0`. -/
def ipphdr0 : IPPortHeader := ⟨iphdr0, 80, 443⟩

/-- Handler that stops on packet id 2 and continues otherwise. -/
def brakeAt2 : Unit → QueueHandle → Except Error Message → Unit × Brake :=
  fun _ _ m =>
    ((), match m with
      | Except.ok msg => if msg.header.packet_id = 2 then Brake.Brake else Brake.Continue
      | Except.error _ => Brake.Continue)

/-- Relay closure that would stop immediately, used to show it is never
reached on malformed events. -/
def relayStop : Unit → QueueHandle → Header → List Nat → Unit × Brake :=
  fun _ _ _ _ => ((), Brake.Brake)

/-- C1 counterexample: a message with a 20-byte payload, requested as the
24-byte `IPPortHeader`, is returned successfully by `Message::payload` — a
misparsed view — instead of failing with a size-mismatch error. -/
theorem payload_size_unchecked_at_20 :
    Message.new ev20 = Except.ok msg20
    ∧ msg20.ptr.payload = some (List.replicate 20 0)
    ∧ (List.replicate 20 0).length ≠ sizeOfIPPortHeader
    ∧ Message.payload msg20 = Except.ok (List.replicate 20 0) := by
  refine ⟨rfl, rfl, by decide, rfl⟩

/-- C1 (amended): `Message::payload` performs no size check — it succeeds
exactly when the underlying `nfq_get_payload` call succeeds, whatever the
payload's byte length and whatever the requested type's size, and every
failure carries the `GetPayload` reason, never `PayloadSizeMismatch`. -/
theorem payload_no_size_check (m : Message) :
    (Message.payload m).isOk = m.ptr.payload.isSome
    ∧ (∀ e, Message.payload m = Except.error e → e.reason = Reason.GetPayload) := by
  cases hp : m.ptr.payload with
  | none =>
      refine ⟨by simp [Message.payload, hp, Except.isOk, Except.toBool], ?_⟩
      intro e he
      simp [Message.payload, hp] at he
      simp [← he, error]
  | some bs =>
      refine ⟨by simp [Message.payload, hp, Except.isOk, Except.toBool], ?_⟩
      intro e he
      simp [Message.payload, hp] at he

/-- C1 witness: the amended theorem applied to the message whose payload
retrieval fails. -/
theorem payload_no_size_check_witness :
    (error Reason.GetPayload (some (-1))).reason = Reason.GetPayload :=
  (payload_no_size_check msgNoPayload).2 (error Reason.GetPayload (some (-1))) rfl

/-- C4: the protocol-byte mapping used by `IPHeader::protocol` (to which
`IPPortHeader::protocol` delegates) is total and stable: byte 6 maps to TCP,
17 to UDP, 1 to ICMP, and every other byte to the other-by-number value
carrying that byte. -/
theorem protocol_mapping_total (h : IPHeader) (p : IPPortHeader) :
    IPPortHeader.protocol p = IPHeader.protocol p.header
    ∧ IPHeader.protocol h = Protocol.ofByte h.protocol_raw
    ∧ Protocol.ofByte 6 = Protocol.TCP
    ∧ Protocol.ofByte 17 = Protocol.UDP
    ∧ Protocol.ofByte 1 = Protocol.ICMP
    ∧ (∀ b, b ≠ 6 → b ≠ 17 → b ≠ 1 → Protocol.ofByte b = Protocol.OTHER b) := by
  refine ⟨rfl, rfl, rfl, rfl, rfl, ?_⟩
  intro b h6 h17 h1
  simp [Protocol.ofByte, h6, h17, h1]

/-- C4 witness: the mapping evaluated at the unassigned byte 7. -/
theorem protocol_mapping_total_witness : Protocol.ofByte 7 = Protocol.OTHER 7 :=
  (protocol_mapping_total iphdr0 ipphdr0).2.2.2.2.2 7 (by decide) (by decide) (by decide)

/-- C6: dropping a `Queue` always calls `nfq_destroy_queue` (deregistering
the queue id with the kernel side); a nonzero return makes the process
panic, a zero return completes normally — no error is ever returned to the
caller. -/
theorem queue_drop_deregisters_and_panics_on_failure (k : Kernel) :
    (Queue.drop k).2 = [Event.destroyQueue]
    ∧ (k.nfq_destroy_queue ≠ 0 → (Queue.drop k).1 = DropOutcome.panicked)
    ∧ (k.nfq_destroy_queue = 0 → (Queue.drop k).1 = DropOutcome.ok) := by
  refine ⟨rfl, ?_, ?_⟩ <;> intro h <;> simp [Queue.drop, h]

/-- C6 witness: a failing destroy call panics. -/
theorem queue_drop_witness : (Queue.drop failKernel).1 = DropOutcome.panicked :=
  (queue_drop_deregisters_and_panics_on_failure failKernel).2.1 (by decide)

/-- C7: `set_mode_sized::<P>` requests copy-mode `Packet` with
`size_of::<P>()` bytes (for any representable size), and `set_mode` returns
`Ok(())` exactly when `nfq_set_mode` returns zero, failing with a
`SetQueueMode` error otherwise. -/
theorem set_mode_sized_requests_payload_size (k : Kernel) (s : Nat) (hs : s < 2 ^ 16) :
    Queue.set_mode_sized k s = Queue.set_mode k (CopyMode.packet s)
    ∧ (∀ mode, Queue.set_mode k mode = Except.ok () ↔ k.nfq_set_mode mode.code mode.range = 0)
    ∧ (∀ mode e, Queue.set_mode k mode = Except.error e → e.reason = Reason.SetQueueMode) := by
  have hs' : s < 65536 := by simpa using hs
  have hmod : s % 65536 = s := Nat.mod_eq_of_lt hs'
  refine ⟨by simp [Queue.set_mode_sized, hmod], ?_, ?_⟩
  · intro mode
    by_cases h : k.nfq_set_mode mode.code mode.range = 0 <;> simp [Queue.set_mode, h]
  · intro mode e he
    by_cases h : k.nfq_set_mode mode.code mode.range = 0 <;>
      simp [Queue.set_mode, h] at he
    simp [← he, error]

/-- C7 witness: the theorem applied at the size of `IPHeader` on the
all-succeeding kernel oracle. -/
theorem set_mode_sized_witness :
    Queue.set_mode_sized testKernel sizeOfIPHeader
      = Queue.set_mode testKernel (CopyMode.packet sizeOfIPHeader) :=
  (set_mode_sized_requests_payload_size testKernel sizeOfIPHeader (by decide)).1

/-- C8: for every 4-byte big-endian (network-order) address encoding,
`source_ip` and `dest_ip` round-trip: a header whose `saddr_raw` /
`daddr_raw` field holds the wire encoding of an IPv4 address decodes to that
address, octet for octet. -/
theorem source_dest_ip_roundtrip (a : Ipv4Addr) (h : IPHeader) :
    addr_to_ipv4 (ipv4_to_wire a) = a
    ∧ IPHeader.source_ip
        ⟨h.version_and_header_raw, h.dscp_raw, h.total_length_raw, h.id_raw,
         h.flags_and_offset_raw, h.ttl_raw, h.protocol_raw, h.checksum_raw,
         ipv4_to_wire a, h.daddr_raw⟩ = a
    ∧ IPHeader.dest_ip
        ⟨h.version_and_header_raw, h.dscp_raw, h.total_length_raw, h.id_raw,
         h.flags_and_offset_raw, h.ttl_raw, h.protocol_raw, h.checksum_raw,
         h.saddr_raw, ipv4_to_wire a⟩ = a := by
  exact ⟨rfl, rfl, rfl⟩

/-- C2: `ip` registers its queue with queue number 0 regardless of the
`queue_num` argument, which reaches only the log message, whereas `ip_ports`
registers with the given `queue_num`. -/
theorem ip_registers_queue_zero (k : Kernel) (pf : ProtocolFamily) (qn : Nat) :
    (∀ n, Event.createQueue n ∈ (ip k pf qn).2 → n = 0)
    ∧ (∀ n, Event.log n ∈ (ip k pf qn).2 → n = qn)
    ∧ (∀ n, Event.createQueue n ∈ (ip_ports k pf qn).2 → n = qn) := by
  refine ⟨?_, ?_, ?_⟩ <;> intro n hn
  · unfold ip at hn
    repeat' split at hn
    all_goals simp_all
  · unfold ip at hn
    repeat' split at hn
    all_goals simp_all
  · unfold ip_ports at hn
    repeat' split at hn
    all_goals simp_all

/-- C2 witness: on the all-succeeding kernel with `queue_num = 5`, the
theorem applied to the queue-creation event of each trace. -/
theorem ip_registers_queue_zero_witness : (0 : Nat) = 0 ∧ (5 : Nat) = 5 :=
  ⟨(ip_registers_queue_zero testKernel ProtocolFamily.INET 5).1 0 (by decide),
   (ip_registers_queue_zero testKernel ProtocolFamily.INET 5).2.2 5 (by decide)⟩

/-- C3: for every sequence of received events, when the handler (threading
its state through the loop) answers `Continue` on a leading block of events
and `Brake` on the next one, `start` returns after processing exactly that
packet: the handler is invoked on the leading block and on the braking
packet, and on no subsequent event. -/
theorem start_stops_after_brake {σ : Type}
    (handler : σ → QueueHandle → Except Error Message → σ × Brake)
    (qhp : Nat) (s : σ) (pre : List RawEvent) (d : RawEvent) (rest : List RawEvent)
    (h1 : allContinue handler qhp s pre = true)
    (h2 : (queue_callback handler (runState handler qhp s pre) qhp d).2 = Brake.Brake) :
    startLoop handler qhp s (pre ++ d :: rest) = (pre ++ [d]).map Message.new := by
  revert h1 h2
  induction pre generalizing s with
  | nil =>
      intro h1 h2
      simp only [runState] at h2
      simp [startLoop, h2]
  | cons e tl ih =>
      intro h1 h2
      simp only [allContinue] at h1
      simp only [runState] at h2
      cases hc : (queue_callback handler s qhp e).2 with
      | Brake =>
          simp only [hc] at h1
          exact absurd h1 (by decide)
      | Continue =>
          simp only [hc] at h1
          simp only [List.cons_append, List.map_cons, startLoop, hc, List.append_eq]
          rw [ih _ h1 h2]

/-- C3 witness: a three-event sequence whose handler brakes on packet id 2
stops after the second invocation; the third event is never delivered. -/
theorem start_stops_after_brake_witness :
    startLoop brakeAt2 0 () ([evA] ++ evB :: [evC]) = ([evA] ++ [evB]).map Message.new :=
  start_stops_after_brake brakeAt2 0 () [evA] evB [evC] (by decide) (by decide)

/-- C5: an event whose header or payload fails to parse still produces a
handler invocation — with the parse error in place of the message when the
header is missing — and the receive loop (here running the `IPHandler`
packet handler from src/ip/mod.rs) continues to the next event with the
relay state untouched instead of crashing or aborting. -/
theorem malformed_event_invokes_handler_and_continues {σ : Type}
    (relay : σ → QueueHandle → Header → List Nat → σ × Brake)
    (qhp : Nat) (s : σ) (d : RawEvent) (rest : List RawEvent)
    (h : d.header = none ∨ d.payload = none) :
    startLoop (IPHandler.handle relay) qhp s (d :: rest)
      = Message.new d :: startLoop (IPHandler.handle relay) qhp s rest
    ∧ (d.header = none → Message.new d = Except.error (error Reason.GetHeader none)) := by
  constructor
  · cases hh : d.header with
    | none => simp [startLoop, queue_callback, IPHandler.handle, Message.new, hh]
    | some hd =>
        rcases h with h | h
        · rw [hh] at h
          exact absurd h (by simp)
        · simp [startLoop, queue_callback, IPHandler.handle, Message.new,
                Message.payload, hh, h]
  · intro hh
    simp [Message.new, hh]

/-- C5 witness: an event with a null header pointer is delivered to the
handler as an error and the loop goes on to the following event. -/
theorem malformed_event_witness :
    startLoop (IPHandler.handle relayStop) 0 () (evBad :: [evA])
      = Message.new evBad :: startLoop (IPHandler.handle relayStop) 0 () [evA] :=
  (malformed_event_invokes_handler_and_continues relayStop 0 () evBad [evA] (Or.inl rfl)).1

/-- C9: the public `set_verdict(qh, id, verdict)` wrapper issues the verdict
in a frame tagged with exactly that packet id, the default mark 0 and no
extra payload bytes, and reports a `SetVerdict` error to its caller exactly
when the underlying write fails. -/
theorem set_verdict_defaults (k : Kernel) (qh : QueueHandle) (id : Nat) (v : Verdict) :
    (set_verdict k qh id v).2 = ⟨id, v, 0, none⟩
    ∧ (k.verdictWrite ⟨id, v, 0, none⟩ = none →
        (set_verdict k qh id v).1 = Except.error (error Reason.SetVerdict none))
    ∧ (∀ ret, k.verdictWrite ⟨id, v, 0, none⟩ = some ret →
        (set_verdict k qh id v).1 = Except.ok ret) := by
  refine ⟨?_, ?_, ?_⟩
  · cases hw : k.verdictWrite ⟨id, v, 0, none⟩ <;>
      simp [set_verdict, Verdict.set_verdict, hw]
  · intro hw
    simp [set_verdict, Verdict.set_verdict, hw]
  · intro ret hw
    simp [set_verdict, Verdict.set_verdict, hw]

/-- C9 witness: on the kernel whose verdict writes fail, the wrapper reports
the verdict error for packet id 7. -/
theorem set_verdict_defaults_witness :
    (set_verdict failKernel ⟨0⟩ 7 Verdict.Accept).1
      = Except.error (error Reason.SetVerdict none) :=
  (set_verdict_defaults failKernel ⟨0⟩ 7 Verdict.Accept).2.1 rfl

/-- C10: a handler derived from a `VerdictHandler` (equivalently, from a
closure via the `FnMut` instance) returns `Continue` on every invocation —
it can never stop the receive loop — and on an error message it issues no
verdict and leaves its state untouched. -/
theorem verdict_handler_always_continues {σ : Type} (k : Kernel)
    (decideFn : σ → Message → σ × Verdict) (s : σ) (hq : QueueHandle)
    (message : Except Error Message) :
    (VerdictHandler.handle k decideFn s hq message).1.2 = Brake.Continue
    ∧ (∀ e, message = Except.error e →
        VerdictHandler.handle k decideFn s hq message = ((s, Brake.Continue), []))
    ∧ VerdictHandler.handle k (FnMut.decide decideFn) s hq message
        = VerdictHandler.handle k decideFn s hq message := by
  refine ⟨?_, ?_, rfl⟩
  · cases message <;> simp [VerdictHandler.handle]
  · intro e he
    subst he
    simp [VerdictHandler.handle]

/-- C10 witness: the derived handler on an error message continues without
issuing any verdict. -/
theorem verdict_handler_witness :
    VerdictHandler.handle testKernel (fun (u : Unit) (_ : Message) => (u, Verdict.Accept)) ()
        (QueueHandle.new 0) (Except.error (error Reason.GetHeader none))
      = (((), Brake.Continue), []) :=
  (verdict_handler_always_continues testKernel
      (fun (u : Unit) (_ : Message) => (u, Verdict.Accept)) () (QueueHandle.new 0)
      (Except.error (error Reason.GetHeader none))).2.1 (error Reason.GetHeader none) rfl

end NFQ
